import Mathlib

/-!
Shallow embedding of the token-ring mutual-exclusion demo.

Namespace `claude` models `src/tokenring/claude.py`: a `Process` owns the
token possession flag, the token generation (`token_id`), a suspicion set
and a FIFO request queue; each handler is embedded as a state transformer
returning the new state together with the list of messages handed to the
transport (the Python code puts them directly into peers' queues).  Fields
of the Python class that belong to the concurrency substrate — the mailbox,
the spawned threads, the wall-clock heartbeat timestamps, the unused
`next_pid`, and the `alive` flag — are not part of the state; the handlers
are exactly the per-message and per-tick bodies the control loop runs.  A
Python runtime error (`max()` of an empty sequence, `None + 1`) is modelled
as `Option.none` at the handler's result type.

Namespace `chatgpt` models `src/tokenring/chatgpt.py`: there the ring holds
processes with `active` and `is_token_holder` flags; only the successor
lookup `TokenRing.get_next_active` and the hand-off `Process.pass_token`
are embedded, as pure functions of the `active` predicate.
-/

namespace claude

/-- The five message kinds of `MessageType` in `claude.py`. -/
inductive MessageType where
  | TOKEN
  | HEARTBEAT
  | HEARTBEAT_ACK
  | TOKEN_REQUEST
  | TOKEN_REGENERATE
  deriving DecidableEq

/-- `Message` from `claude.py`; the diagnostic `timestamp` field is omitted
(it is never read by any handler). -/
structure Message where
  type : MessageType
  sender : Nat
  receiver : Nat
  token_id : Option Nat
  deriving DecidableEq

/-- The protocol-relevant mutable state of a `Process` in `claude.py`.
`suspected_failed` and `token_holders` are Python sets, modelled as lists
with set-like operations; `token_requests` is the FIFO queue (a Python
list, appended at the back, popped at index 0). -/
structure ProcState where
  pid : Nat
  n_processes : Nat
  has_token : Bool
  token_id : Option Nat
  suspected_failed : List Nat
  requesting_token : Bool
  token_requests : List Nat
  critical_section : Bool
  token_holders : List Nat
  deriving DecidableEq

/-- `Process._send_message`: builds the message and delivers it unless the
receiver is in the sender's suspicion set (in which case it is dropped). -/
def send_message (s : ProcState) (t : MessageType) (receiver : Nat)
    (tid : Option Nat) : List Message :=
  if receiver ∈ s.suspected_failed then [] else [⟨t, s.pid, receiver, tid⟩]

/-- `Process._broadcast`: sends to every pid in `range(n_processes)` other
than self and not suspected. -/
def broadcast (s : ProcState) (t : MessageType) (tid : Option Nat) : List Message :=
  ((List.range s.n_processes).filter
      (fun p => decide (p ≠ s.pid) && decide (p ∉ s.suspected_failed))).flatMap
    (fun p => send_message s t p tid)

/-- `Process._get_next_alive_process`: for `i in range(n_processes)` probe
`(pid + i + 1) % n_processes` and return the first candidate not in
`suspected_failed`, else `None`. -/
def get_next_alive_process (s : ProcState) : Option Nat :=
  ((List.range s.n_processes).map (fun i => (s.pid + i + 1) % s.n_processes)).find?
    (fun p => decide (p ∉ s.suspected_failed))

/-- `Process.release_token`: if holding, clear `has_token` and
`critical_section`, then send `TOKEN` carrying the current `token_id` to
`_get_next_alive_process()` when that is not `None`. -/
def release_token (s : ProcState) : ProcState × List Message :=
  if s.has_token then
    let s1 := { s with has_token := false, critical_section := false }
    match get_next_alive_process s1 with
    | some next_pid => (s1, send_message s1 MessageType.TOKEN next_pid s1.token_id)
    | none => (s1, [])
  else (s, [])

/-- `Process.request_token`: set `requesting_token`, and broadcast
`TOKEN_REQUEST` (whose `token_id` slot carries the sender's pid) when not
holding the token. -/
def request_token (s : ProcState) : ProcState × List Message :=
  let s1 := { s with requesting_token := true }
  if s1.has_token then (s1, [])
  else (s1, broadcast s1 MessageType.TOKEN_REQUEST (some s1.pid))

/-- `Process._handle_token`: unconditionally accept the token (set
`has_token`, overwrite `token_id` with the message's, enter the critical
section, clear `requesting_token`, record self in `token_holders`); then,
if the request queue is non-empty, pop its head and, when the popped pid is
not suspected, run `release_token`. -/
def handle_token (s : ProcState) (msg_token_id : Option Nat) : ProcState × List Message :=
  let s1 := { s with has_token := true, token_id := msg_token_id,
                     critical_section := true, requesting_token := false,
                     token_holders := s.token_holders.insert s.pid }
  match s1.token_requests with
  | [] => (s1, [])
  | next_pid :: rest =>
    let s2 := { s1 with token_requests := rest }
    if next_pid ∈ s2.suspected_failed then (s2, []) else release_token s2

/-- `Process._handle_token_request`: append the sender to `token_requests`
unless already present, then release if holding and not itself requesting. -/
def handle_token_request (s : ProcState) (sender : Nat) : ProcState × List Message :=
  let s1 := if sender ∈ s.token_requests then s
            else { s with token_requests := s.token_requests ++ [sender] }
  if s1.has_token && !s1.requesting_token then release_token s1 else (s1, [])

/-- The `max(pid for pid in range(n) if pid not in suspected)` computation of
`Process._handle_token_regenerate`; `none` models Python's `ValueError` on
an empty sequence. -/
def highest_alive (n : Nat) (suspected : List Nat) : Option Nat :=
  ((List.range n).filter (fun p => decide (p ∉ suspected))).max?

/-- `Process._handle_token_regenerate`: only the highest non-suspected pid
acts — it sets `has_token`, sets `token_id` to the message's generation plus
one, and runs `release_token`; everyone else does nothing.  The outer `none`
models the `ValueError` when every pid is suspected, the inner `none` the
`TypeError` of `None + 1` when the message carries no generation. -/
def handle_token_regenerate (s : ProcState) (msg_token_id : Option Nat) :
    Option (ProcState × List Message) :=
  match highest_alive s.n_processes s.suspected_failed with
  | none => none
  | some hi =>
    if s.pid = hi then
      match msg_token_id with
      | none => none
      | some g =>
        some (release_token { s with has_token := true, token_id := some (g + 1) })
    else some (s, [])

/-- The body of the failure check in `Process._heartbeat_thread` (lines
79-84) for one peer `p` that just went stale and was not yet suspected:
`suspected_failed.add(p)`, then broadcast `TOKEN_REGENERATE` carrying the
current `token_id` when `has_token` holds and `p` equals
`_get_next_alive_process()` (computed after the add). -/
def heartbeat_suspect_step (s : ProcState) (p : Nat) : ProcState × List Message :=
  let s1 := { s with suspected_failed := p :: s.suspected_failed }
  if s1.has_token && decide (get_next_alive_process s1 = some p) then
    (s1, broadcast s1 MessageType.TOKEN_REGENERATE s1.token_id)
  else (s1, [])

end claude

namespace chatgpt

/-- `TokenRing.get_next_active`: for `i in range(1, num_processes)` probe
`(process_id + i) % num_processes` and return the first active one, else
`None` (the id of the returned process object). -/
def get_next_active (num_processes : Nat) (active : Nat → Bool)
    (process_id : Nat) : Option Nat :=
  ((List.range' 1 (num_processes - 1)).map
      (fun i => (process_id + i) % num_processes)).find? active

/-- `Process.pass_token`: look up the next active process; if one exists it
receives the token (it is active, so `receive_token` sets its holder flag)
and the sender's `is_token_holder` is cleared; otherwise nothing happens.
The result is the sender's new holder flag and the id of the receiver, if
any. -/
def pass_token (num_processes : Nat) (active : Nat → Bool) (process_id : Nat)
    (holds : Bool) : Bool × Option Nat :=
  match get_next_active num_processes active process_id with
  | some next_id => (false, some next_id)
  | none => (holds, none)

end chatgpt

/-- C1: evaluation of the spec's topology tests on both variants.  The scan
in `claude.py` covers cyclic offsets 1..N, and offset N is the process
itself, so with every peer suspected it returns the caller: for N=5, id=2,
suspected={0,1,3,4} it yields `some 2` where the claim requires `none`.
The scan in `chatgpt.py` covers offsets 1..N-1 and returns `none` there, as
the claim states; both variants agree on the first test
(suspected={3,4} gives 0). -/
theorem C1_next_alive_exhausted_eval :
    claude.get_next_alive_process ⟨2, 5, false, none, [3, 4], false, [], false, []⟩ = some 0 ∧
    claude.get_next_alive_process ⟨2, 5, false, none, [0, 1, 3, 4], false, [], false, []⟩ = some 2 ∧
    chatgpt.get_next_active 5 (fun p => decide (p ∉ ([3, 4] : List Nat))) 2 = some 0 ∧
    chatgpt.get_next_active 5 (fun p => decide (p ∉ ([0, 1, 3, 4] : List Nat))) 2 = none := by
  decide

/-- C2: evaluation of `release_token` with a non-empty request queue.
Process 0 of 3 holds generation 7 and has the pending request queue [2];
`release_token` sends the `TOKEN` to the ring successor 1, not to the queue
head 2 — `release_token` never consults `token_requests` (the head popped in
`_handle_token` is likewise not the send target).  The second conjunct
checks the no-op when not holding. -/
theorem C2_release_target_eval :
    claude.release_token ⟨0, 3, true, some 7, [], false, [2], false, []⟩ =
      (⟨0, 3, false, some 7, [], false, [2], false, []⟩,
       [⟨claude.MessageType.TOKEN, 0, 1, some 7⟩]) ∧
    claude.release_token ⟨0, 3, false, some 7, [], false, [2], false, []⟩ =
      (⟨0, 3, false, some 7, [], false, [2], false, []⟩, []) := by
  decide

/-- C3: `_handle_token_regenerate` has no generation check, so it is not
idempotent.  Process 2 of 3 (the highest alive) with local generation 5
receives `TOKEN_REGENERATE` carrying generation 3: instead of a no-op
(3 ≤ 5) it regenerates, setting its generation to 4 — a regression — and
emits a `TOKEN` with generation 4; delivering the same message to the
resulting state emits a second generation-4 token, so two deliveries create
two tokens, not one. -/
theorem C3_regenerate_not_idempotent_eval :
    claude.handle_token_regenerate ⟨2, 3, false, some 5, [], false, [], false, []⟩ (some 3) =
      some (⟨2, 3, false, some 4, [], false, [], false, []⟩,
            [⟨claude.MessageType.TOKEN, 2, 0, some 4⟩]) ∧
    claude.handle_token_regenerate ⟨2, 3, false, some 4, [], false, [], false, []⟩ (some 3) =
      some (⟨2, 3, false, some 4, [], false, [], false, []⟩,
            [⟨claude.MessageType.TOKEN, 2, 0, some 4⟩]) := by
  decide

/-- C4: `_handle_token` accepts a stale token.  Process 1 of 3 with local
generation 5 receives a `TOKEN` with the older generation 3: the code
unconditionally sets `has_token` and overwrites `token_id` with 3, so the
recorded generation decreases and the process transitions to HOLDING,
where the claim requires the stale token to be ignored. -/
theorem C4_stale_token_accepted_eval :
    claude.handle_token ⟨1, 3, false, some 5, [], true, [], false, []⟩ (some 3) =
      (⟨1, 3, true, some 3, [], false, [], true, [1]⟩, []) := by
  decide

/-- C7: behaviour when every peer is suspected.  In `claude.py`, process 0
of 2 holding generation 0 with suspected={1} does not keep the token on
`release_token`: it clears `has_token` and sends the `TOKEN` to itself
(`_get_next_alive_process` returns the caller at offset N).  In
`chatgpt.py`, `pass_token` with no active successor does keep the token and
sends nothing, as the claim states. -/
theorem C7_release_exhausted_eval :
    claude.release_token ⟨0, 2, true, some 0, [1], false, [], false, []⟩ =
      (⟨0, 2, false, some 0, [1], false, [], false, []⟩,
       [⟨claude.MessageType.TOKEN, 0, 0, some 0⟩]) ∧
    chatgpt.pass_token 2 (fun p => decide (p = 0)) 0 true = (true, none) := by
  decide

/-- C8 counterexample: `_handle_token_request` has no not-self guard, so a
request whose sender equals the receiving process's own pid is appended:
process 0 handling a `TOKEN_REQUEST` from sender 0 ends with
`token_requests = [0]`, which contains its own ID — the claim's "appends Q
only if ... Q is not the receiving process itself" is false of the handler. -/
theorem C8_self_request_appended :
    (claude.handle_token_request ⟨0, 2, false, none, [], false, [], false, []⟩ 0).1.token_requests
      = [0] := by
  decide

/-- C9 counterexample: `request_token` is not a no-op in the REQUESTING and
HOLDING states.  Already REQUESTING (flag set, token absent), process 0 of 2
broadcasts `TOKEN_REQUEST` again; already HOLDING, `request_token` still
sets `requesting_token` — a state change — though it does not broadcast. -/
theorem C9_rerequest_broadcasts :
    claude.request_token ⟨0, 2, false, none, [], true, [], false, []⟩ =
      (⟨0, 2, false, none, [], true, [], false, []⟩,
       [⟨claude.MessageType.TOKEN_REQUEST, 0, 1, some 0⟩]) ∧
    claude.request_token ⟨0, 2, true, some 0, [], false, [], false, []⟩ =
      (⟨0, 2, true, some 0, [], true, [], false, []⟩, []) := by
  decide

/-- Whatever `get_next_alive_process` returns was accepted by the scan's
filter, so it is never a suspected pid. -/
theorem get_next_alive_not_suspected (s : claude.ProcState) (q : Nat)
    (h : claude.get_next_alive_process s = some q) : q ∉ s.suspected_failed := by
  unfold claude.get_next_alive_process at h
  have := List.find?_some h
  simpa using this

/-- `release_token` never touches the request queue. -/
theorem release_token_preserves_queue (s : claude.ProcState) :
    (claude.release_token s).1.token_requests = s.token_requests := by
  unfold claude.release_token
  split
  · dsimp only
    split <;> rfl
  · rfl

/-- Sending to each element of a list of non-suspected pids produces exactly
one message per element. -/
theorem flatMap_send_eq_map (s : claude.ProcState) (t : claude.MessageType)
    (tid : Option Nat) :
    ∀ l : List Nat, (∀ p ∈ l, p ∉ s.suspected_failed) →
      l.flatMap (fun p => claude.send_message s t p tid) =
        l.map (fun p => ⟨t, s.pid, p, tid⟩) := by
  intro l
  induction l with
  | nil => intro _; rfl
  | cons a as ih =>
    intro h
    have ha : a ∉ s.suspected_failed := h a (List.mem_cons_self a as)
    have hrec := ih (fun p hp => h p (List.mem_cons_of_mem _ hp))
    simp only [List.flatMap_cons, List.map_cons, hrec]
    simp [claude.send_message, ha]

/-- C6: the regeneration broadcast in the heartbeat sweep is dead code.  The
guard compares the newly suspected peer with `_get_next_alive_process()`
computed after the peer was added to `suspected_failed`, and the scan never
returns a suspected pid, so the comparison (and with it the broadcast) never
fires — in particular it does not fire in the situation the claim describes
(peer was the pre-update successor and the process does not hold the token),
nor in any other. -/
theorem C6_sweep_never_broadcasts (s : claude.ProcState) (p : Nat) :
    (claude.heartbeat_suspect_step s p).2 = [] := by
  unfold claude.heartbeat_suspect_step
  dsimp only
  split
  · next hcond =>
    exfalso
    have h2 := (Bool.and_eq_true _ _).mp hcond
    have h3 : claude.get_next_alive_process
        { s with suspected_failed := p :: s.suspected_failed } = some p :=
      of_decide_eq_true h2.2
    have h4 := get_next_alive_not_suspected _ _ h3
    simp at h4
  · rfl

/-- C5: on `TOKEN_REGENERATE` with generation `g`, exactly the process whose
own pid is the maximum pid outside its suspicion set acts — it sets
`has_token`, sets its generation to `g + 1` and immediately runs
`release_token` — while every other recipient leaves its state unchanged and
sends nothing.  The hypotheses say the receiver is a ring participant that
does not suspect itself (always true in the code: a process never adds its
own pid to `suspected_failed`). -/
theorem C5_regenerate_highest_alive (s : claude.ProcState) (g : Nat)
    (hn : s.pid < s.n_processes) (hs : s.pid ∉ s.suspected_failed) :
    ∃ hi, claude.highest_alive s.n_processes s.suspected_failed = some hi ∧
      hi < s.n_processes ∧ hi ∉ s.suspected_failed ∧
      (∀ p, p < s.n_processes → p ∉ s.suspected_failed → p ≤ hi) ∧
      (s.pid = hi →
        claude.handle_token_regenerate s (some g) =
          some (claude.release_token
            { s with has_token := true, token_id := some (g + 1) })) ∧
      (s.pid ≠ hi → claude.handle_token_regenerate s (some g) = some (s, [])) := by
  set l := (List.range s.n_processes).filter
      (fun p => decide (p ∉ s.suspected_failed)) with hl
  have hmem : s.pid ∈ l := by
    rw [hl]
    exact List.mem_filter.mpr ⟨List.mem_range.mpr hn, by simpa using hs⟩
  have hne : l ≠ [] := by
    intro hnil
    rw [hnil] at hmem
    exact absurd hmem (List.not_mem_nil _)
  obtain ⟨hi, hhi⟩ : ∃ hi, l.max? = some hi := by
    cases hcase : l.max? with
    | none => exact absurd (List.max?_eq_none_iff.mp hcase) hne
    | some a => exact ⟨a, rfl⟩
  have hspec := List.max?_eq_some_iff'.mp hhi
  have hiin := List.mem_filter.mp hspec.1
  have hha : claude.highest_alive s.n_processes s.suspected_failed = some hi := by
    unfold claude.highest_alive
    rw [← hl]
    exact hhi
  refine ⟨hi, hha, List.mem_range.mp hiin.1, by simpa using hiin.2, ?_, ?_, ?_⟩
  · intro p hp hps
    exact hspec.2 p (List.mem_filter.mpr ⟨List.mem_range.mpr hp, by simpa using hps⟩)
  · intro hpe
    simp [claude.handle_token_regenerate, hha, hpe]
  · intro hpe
    simp [claude.handle_token_regenerate, hha, hpe]

/-- C5 witness: N=3, nobody suspected, receiver 2; the highest alive pid is
2, so process 2 regenerates with generation 7 + 1 and hands the token on,
and the non-highest branch is vacuously instantiable. -/
theorem C5_regenerate_highest_alive_witness :
    ∃ hi, claude.highest_alive 3 [] = some hi ∧
      hi < 3 ∧ hi ∉ ([] : List Nat) ∧
      (∀ p, p < 3 → p ∉ ([] : List Nat) → p ≤ hi) ∧
      ((2 : Nat) = hi →
        claude.handle_token_regenerate
            ⟨2, 3, false, some 5, [], false, [], false, []⟩ (some 7) =
          some (claude.release_token ⟨2, 3, true, some 8, [], false, [], false, []⟩)) ∧
      ((2 : Nat) ≠ hi →
        claude.handle_token_regenerate
            ⟨2, 3, false, some 5, [], false, [], false, []⟩ (some 7) =
          some (⟨2, 3, false, some 5, [], false, [], false, []⟩, [])) :=
  C5_regenerate_highest_alive ⟨2, 3, false, some 5, [], false, [], false, []⟩ 7
    (by decide) (by decide)

/-- C8 (amended): `_handle_token_request` appends the sender exactly when it
is not already queued, so for senders other than the receiver itself the
queue stays duplicate-free and free of the receiver's own pid; and
`_handle_token` consumes the queue from the front (the head is popped
whatever happens afterwards).  The not-self guard of the original claim does
not exist in the handler, but `_broadcast` never targets the sender itself,
which is why the q ≠ pid hypothesis reflects every reachable request. -/
theorem C8_queue_invariants (s : claude.ProcState) (q : Nat)
    (hq : q ≠ s.pid) (hself : s.pid ∉ s.token_requests)
    (hnd : s.token_requests.Nodup) :
    ((claude.handle_token_request s q).1.token_requests =
        if q ∈ s.token_requests then s.token_requests
        else s.token_requests ++ [q]) ∧
    (claude.handle_token_request s q).1.token_requests.Nodup ∧
    s.pid ∉ (claude.handle_token_request s q).1.token_requests ∧
    ∀ (g : Option Nat) (r : Nat) (rest : List Nat),
      s.token_requests = r :: rest →
        (claude.handle_token s g).1.token_requests = rest := by
  have hq1 : (claude.handle_token_request s q).1.token_requests =
      if q ∈ s.token_requests then s.token_requests
      else s.token_requests ++ [q] := by
    unfold claude.handle_token_request
    by_cases hmem : q ∈ s.token_requests
    · simp only [if_pos hmem]
      split
      · rw [release_token_preserves_queue]
      · rfl
    · simp only [if_neg hmem]
      split
      · rw [release_token_preserves_queue]
      · rfl
  refine ⟨hq1, ?_, ?_, ?_⟩
  · rw [hq1]
    by_cases hmem : q ∈ s.token_requests
    · simpa [hmem] using hnd
    · simp [hmem, List.nodup_append, hnd]
  · rw [hq1]
    by_cases hmem : q ∈ s.token_requests
    · simpa [hmem] using hself
    · simp only [if_neg hmem]
      intro hmem2
      rcases List.mem_append.mp hmem2 with hcase | hcase
      · exact hself hcase
      · simp only [List.mem_singleton] at hcase
        exact hq hcase.symm
  · intro g r rest hrr
    simp only [claude.handle_token, hrr]
    split
    · rfl
    · rw [release_token_preserves_queue]

/-- C8 witness: process 0 of 3 with queue [2] handles a request from 1 —
[1] is appended behind [2], the queue stays duplicate-free and free of 0,
and a subsequent token arrival pops the head. -/
theorem C8_queue_invariants_witness :
    ((claude.handle_token_request
        ⟨0, 3, false, none, [], false, [2], false, []⟩ 1).1.token_requests =
      if (1 : Nat) ∈ ([2] : List Nat) then [2] else [2] ++ [1]) ∧
    (claude.handle_token_request
        ⟨0, 3, false, none, [], false, [2], false, []⟩ 1).1.token_requests.Nodup ∧
    (0 : Nat) ∉ (claude.handle_token_request
        ⟨0, 3, false, none, [], false, [2], false, []⟩ 1).1.token_requests ∧
    ∀ (g : Option Nat) (r : Nat) (rest : List Nat),
      ([2] : List Nat) = r :: rest →
        (claude.handle_token
          ⟨0, 3, false, none, [], false, [2], false, []⟩ g).1.token_requests = rest :=
  C8_queue_invariants ⟨0, 3, false, none, [], false, [2], false, []⟩ 1
    (by decide) (by decide) (by decide)

/-- C9 (amended): `request_token` always sets `requesting_token`; it
broadcasts `TOKEN_REQUEST` to every non-suspected peer exactly when the
process does not hold the token — so from IDLE it transitions to REQUESTING
with the specified broadcast, but when already REQUESTING it broadcasts
again, and when HOLDING it broadcasts nothing yet still sets the flag. -/
theorem C9_request_token_behavior (s : claude.ProcState) :
    claude.request_token s =
      ({ s with requesting_token := true },
       if s.has_token then []
       else ((List.range s.n_processes).filter
               (fun p => decide (p ≠ s.pid) && decide (p ∉ s.suspected_failed))).map
              (fun p => ⟨claude.MessageType.TOKEN_REQUEST, s.pid, p, some s.pid⟩)) := by
  unfold claude.request_token
  dsimp only
  by_cases h : s.has_token
  · simp [h]
  · simp only [h, Bool.false_eq_true, if_neg, ite_false]
    refine congrArg _ ?_
    unfold claude.broadcast
    refine flatMap_send_eq_map _ _ _ _ ?_
    intro p hp
    have := (List.mem_filter.mp hp).2
    have h2 := (Bool.and_eq_true _ _).mp this
    exact of_decide_eq_true h2.2

/-- C10: when a `TOKEN` arrives while the head of the request queue is a
suspected peer, `_handle_token` pops and discards that head without
forwarding anything, and keeps the token: the result state is HOLDING with
the tail queue and the outbound message list is empty. -/
theorem C10_suspected_head_discarded (s : claude.ProcState) (g : Option Nat)
    (r : Nat) (rest : List Nat) (hq : s.token_requests = r :: rest)
    (hr : r ∈ s.suspected_failed) :
    claude.handle_token s g =
      ({ s with has_token := true, token_id := g, critical_section := true,
                requesting_token := false,
                token_holders := s.token_holders.insert s.pid,
                token_requests := rest }, []) := by
  simp only [claude.handle_token, hq]
  split
  · rfl
  · next hcon => exact absurd hr hcon

/-- C10 witness: process 0 of 2 with queue [1] and suspected={1} receives a
`TOKEN` with generation 9: the head 1 is discarded, the queue empties, no
message goes out, and process 0 is HOLDING generation 9. -/
theorem C10_suspected_head_discarded_witness :
    claude.handle_token ⟨0, 2, false, none, [1], false, [1], false, []⟩ (some 9) =
      (⟨0, 2, true, some 9, [1], false, [], true, [0]⟩, []) :=
  C10_suspected_head_discarded ⟨0, 2, false, none, [1], false, [1], false, []⟩
    (some 9) 1 [] rfl (by decide)
